import Mathlib

/-!
Shallow embedding of the Gateway-side LoRa session manager of Mosaic-RAK
(src/src/lora_manager.cpp, src/src/protocol.h, src/include/lora_manager.h,
src/include/config.h), together with proofs of the specification claims
about discovery, pairing, registry invariants, ID allocation, MAC
formatting and persistence.

Machine integers of the source (uint8_t, uint32_t) are modelled as `Nat`,
with explicit `% 2^32` (via `sub32`) exactly where the source performs
unsigned 32-bit subtraction (`millis()` timestamp differences), and
`% 256` where the source truncates to `uint8_t`.  Callback invocations
and `saveNodes()` calls are modelled as emitted `Event`s.
-/

namespace MosaicRAK

/-! ## Constants (protocol.h, config.h) -/

def MAC_ADDR_LEN : Nat := 6

/-- PKG_HELLO = 0x01 (protocol.h). -/
def PKG_HELLO : Nat := 0x01
/-- PKG_WELCOME = 0x02 (protocol.h). -/
def PKG_WELCOME : Nat := 0x02
/-- PKG_ACK = 0x03 (protocol.h). -/
def PKG_ACK : Nat := 0x03

/-- ERR_NONE = 0x00 (protocol.h). -/
def ERR_NONE : Nat := 0x00

/-- DEV_TYPE_RELAY_2CH = 0x01 (protocol.h); default device type used by
`_handleAck` when no discovered-list entry matches. -/
def DEV_TYPE_RELAY_2CH : Nat := 0x01

/-- MAX_DISCOVERED_NODES = 16 (config.h line 101). -/
def MAX_DISCOVERED_NODES : Nat := 16

/-- MAX_NODES = 32 (config.h line 100, "Maksimum kayıtlı node sayısı").
Defined in the source but never referenced by lora_manager.cpp. -/
def MAX_NODES : Nat := 32

/-- LORA_PAIRING_TIMEOUT = 10000 ms (config.h line 97). -/
def LORA_PAIRING_TIMEOUT : Nat := 10000

/-- NODE_OFFLINE_THRESHOLD = 120000 ms (lora_manager.cpp line 24). -/
def NODE_OFFLINE_THRESHOLD : Nat := 120000

/-- 2^32: the modulus of uint32_t arithmetic. -/
def U32 : Nat := 4294967296

/-- Unsigned 32-bit subtraction `a - b` as performed on `uint32_t`
timestamps (`millis() - start`). -/
def sub32 (a b : Nat) : Nat := (a % U32 + (U32 - b % U32)) % U32

/-! ## Data model (lora_manager.h) -/

/-- A 6-byte hardware address, each entry a byte value. -/
abbrev MAC := List Nat

/-- struct DiscoveredNode (lora_manager.h). -/
structure DiscoveredNode where
  macAddr : MAC
  deviceType : Nat
  fwVersion : Nat
  rssi : Int
  snr : Int
  discoveredAt : Nat
  valid : Bool
deriving Repr, DecidableEq

/-- struct RegisteredNode (lora_manager.h). -/
structure RegisteredNode where
  nodeID : Nat
  macAddr : MAC
  deviceType : Nat
  name : String
  relayStatus : Nat
  lastRSSI : Int
  lastSNR : Int
  uptime : Nat
  lastSeen : Nat
  online : Bool
  valid : Bool
deriving Repr, DecidableEq

/-- PairingState_t (lora_manager.h). -/
inductive PairingState where
  | PAIR_IDLE
  | PAIR_WAITING_ACK
  | PAIR_SUCCESS
  | PAIR_TIMEOUT
  | PAIR_FAILED
deriving Repr, DecidableEq

open PairingState

/-- HelloPacket_t (protocol.h): type byte omitted, dispatch already done. -/
structure HelloPacket where
  macAddr : MAC
  deviceType : Nat
  fwVersion : Nat
deriving Repr, DecidableEq

/-- AckPacket_t (protocol.h): type byte omitted, dispatch already done. -/
structure AckPacket where
  nodeID : Nat
  ackType : Nat
  status : Nat
deriving Repr, DecidableEq

/-- The LoRaManager state touched by the discovery / pairing / registry
logic (private fields of class LoRaManager). -/
structure LoRaState where
  scanMode : Bool
  scanStartTime : Nat
  scanDuration : Nat
  discoveredNodes : List DiscoveredNode
  pairingState : PairingState
  pairingMAC : MAC
  pairingNodeID : Nat
  pairingStartTime : Nat
  registeredNodes : List RegisteredNode
  lastNodeCheck : Nat
deriving Repr, DecidableEq

/-- The constructor LoRaManager::LoRaManager(): empty registry, Idle
pairing, scan off. -/
def initState : LoRaState :=
  { scanMode := false
    scanStartTime := 0
    scanDuration := 60000
    discoveredNodes := []
    pairingState := PAIR_IDLE
    pairingMAC := List.replicate MAC_ADDR_LEN 0
    pairingNodeID := 0
    pairingStartTime := 0
    registeredNodes := []
    lastNodeCheck := 0 }

/-- Observable effects: callback invocations and saveNodes() calls. -/
inductive Event where
  | pairingComplete (nodeID : Nat) (success : Bool)
  | nodeDiscovered (node : DiscoveredNode)
  | savedNodes (nodes : List RegisteredNode)
deriving Repr, DecidableEq

/-! ## Registry helpers (lora_manager.cpp) -/

/-- LoRaManager::_isNodeRegistered (lora_manager.cpp 492-499): a valid
RegisteredNode has this MAC (bytewise memcmp equality). -/
def isNodeRegistered (nodes : List RegisteredNode) (mac : MAC) : Bool :=
  nodes.any (fun n => n.valid && n.macAddr == mac)

/-- LoRaManager::_isDuplicateDiscovered (lora_manager.cpp 442-449). -/
def isDuplicateDiscovered (discovered : List DiscoveredNode) (mac : MAC) : Bool :=
  discovered.any (fun n => n.macAddr == mac)

/-- The `used[]` array of _getNextFreeID (lora_manager.cpp 501-510):
IDs 0 and 255 reserved, plus every valid node's ID. -/
def idUsed (nodes : List RegisteredNode) (id : Nat) : Bool :=
  id == 0 || id == 255 || nodes.any (fun n => n.valid && n.nodeID == id)

/-- The scan loop of _getNextFreeID (lora_manager.cpp 512-516):
`for (id = 1; id < 255; id++) if (!used[id]) return id;` modelled with
explicit fuel counting the remaining iterations. -/
def scanFree (nodes : List RegisteredNode) : Nat → Nat → Nat
  | 0, _ => 0
  | fuel + 1, id => if idUsed nodes id then scanFree nodes fuel (id + 1) else id

/-- LoRaManager::_getNextFreeID (lora_manager.cpp 501-519): first unused
ID in 1..254, or the sentinel 0 when none is free. -/
def getNextFreeID (nodes : List RegisteredNode) : Nat :=
  scanFree nodes 254 1

/-- snprintf(node.name, ..., "Node_%d", id) (lora_manager.cpp 329). -/
def nodeName (id : Nat) : String := "Node_" ++ toString id

/-! ## Pairing (lora_manager.cpp) -/

/-- LoRaManager::startPairing (lora_manager.cpp 455-484).  `now` is
`millis()` at the call; `txOk` is the result of the modem transmit
performed by `_sendWelcome` (external to the session state).  Returns the
C++ return value and the successor state.  Note the source assigns
`_pairingNodeID = _getNextFreeID()` before testing it against 0. -/
def startPairing (txOk : Bool) (now : Nat) (s : LoRaState) (mac : MAC) :
    Bool × LoRaState :=
  if s.pairingState ≠ PAIR_IDLE then (false, s)
  else if isNodeRegistered s.registeredNodes mac then (false, s)
  else
    let id := getNextFreeID s.registeredNodes
    let s1 := { s with pairingNodeID := id }
    if id = 0 then (false, s1)
    else
      (txOk,
       { s1 with
          pairingMAC := mac
          pairingStartTime := now
          pairingState := PAIR_WAITING_ACK })

/-- LoRaManager::cancelPairing (lora_manager.cpp 486-490). -/
def cancelPairing (s : LoRaState) : LoRaState :=
  { s with
     pairingState := PAIR_IDLE
     pairingMAC := List.replicate MAC_ADDR_LEN 0
     pairingNodeID := 0 }

/-- The RegisteredNode built by _handleAck on a successful Welcome-Ack
(lora_manager.cpp 316-336): ID and MAC from the session, device type
backfilled from the first discovered-list entry with the session MAC
(else DEV_TYPE_RELAY_2CH), transients zeroed, online, valid. -/
def mkPairedNode (now : Nat) (s : LoRaState) : RegisteredNode :=
  { nodeID := s.pairingNodeID
    macAddr := s.pairingMAC
    deviceType :=
      match s.discoveredNodes.find? (fun d => d.macAddr == s.pairingMAC) with
      | some d => d.deviceType
      | none => DEV_TYPE_RELAY_2CH
    name := nodeName s.pairingNodeID
    relayStatus := 0
    lastRSSI := 0
    lastSNR := 0
    uptime := 0
    lastSeen := now
    online := true
    valid := true }

/-- LoRaManager::_handleAck (lora_manager.cpp 306-354).  Only `ackType`
and `status` of the packet are inspected; the outcome is otherwise drawn
from the stored session fields.  Events record the saveNodes() call and
the pairing callback, in source order. -/
def handleAck (now : Nat) (s : LoRaState) (pkt : AckPacket) :
    LoRaState × List Event :=
  if s.pairingState = PAIR_WAITING_ACK ∧ pkt.ackType = PKG_WELCOME then
    if pkt.status = ERR_NONE then
      let node := mkPairedNode now s
      let regs := s.registeredNodes ++ [node]
      ({ s with registeredNodes := regs, pairingState := PAIR_IDLE },
       [Event.savedNodes regs, Event.pairingComplete s.pairingNodeID true])
    else
      ({ s with pairingState := PAIR_IDLE },
       [Event.pairingComplete s.pairingNodeID false])
  else (s, [])

/-! ## Discovery (lora_manager.cpp) -/

/-- LoRaManager::_addDiscoveredNode (lora_manager.cpp 417-440): drops the
Hello when the list already holds MAX_DISCOVERED_NODES entries, else
appends and fires the discovery callback. The entry it builds: -/
def mkDiscoveredNode (now : Nat) (pkt : HelloPacket) (rssi snr : Int) :
    DiscoveredNode :=
  { macAddr := pkt.macAddr
    deviceType := pkt.deviceType
    fwVersion := pkt.fwVersion
    rssi := rssi
    snr := snr
    discoveredAt := now
    valid := true }

def addDiscoveredNode (now : Nat) (s : LoRaState) (pkt : HelloPacket)
    (rssi snr : Int) : LoRaState × List Event :=
  if MAX_DISCOVERED_NODES ≤ s.discoveredNodes.length then (s, [])
  else
    let node := mkDiscoveredNode now pkt rssi snr
    ({ s with discoveredNodes := s.discoveredNodes ++ [node] },
     [Event.nodeDiscovered node])

/-- LoRaManager::_handleHello (lora_manager.cpp 279-304): the three gates
(scan active, not a duplicate, not registered), then _addDiscoveredNode. -/
def handleHello (now : Nat) (s : LoRaState) (pkt : HelloPacket)
    (rssi snr : Int) : LoRaState × List Event :=
  if !s.scanMode then (s, [])
  else if isDuplicateDiscovered s.discoveredNodes pkt.macAddr then (s, [])
  else if isNodeRegistered s.registeredNodes pkt.macAddr then (s, [])
  else addDiscoveredNode now s pkt rssi snr

/-! ## Registry mutation (lora_manager.cpp) -/

/-- The erase loop of LoRaManager::removeNode (lora_manager.cpp 543-553):
removes the first entry whose nodeID matches (the source does not test
`valid` here). Returns (found, remaining list). -/
def eraseFirstID : List RegisteredNode → Nat → Bool × List RegisteredNode
  | [], _ => (false, [])
  | n :: rest, id =>
    if n.nodeID = id then (true, rest)
    else
      let r := eraseFirstID rest id
      (r.1, n :: r.2)

/-- LoRaManager::removeNode (lora_manager.cpp 543-553): erase, then
saveNodes(), returning whether a node was removed. -/
def removeNode (s : LoRaState) (id : Nat) : Bool × LoRaState × List Event :=
  let r := eraseFirstID s.registeredNodes id
  if r.1 then
    (true, { s with registeredNodes := r.2 }, [Event.savedNodes r.2])
  else (false, s, [])

/-! ## Update tick (lora_manager.cpp 145-176) -/

/-- LoRaManager::_updateNodeOnlineStatus (lora_manager.cpp 565-575). -/
def updateNodeOnlineStatus (now : Nat) (nodes : List RegisteredNode) :
    List RegisteredNode :=
  nodes.map (fun n =>
    if n.valid && n.online && decide (NODE_OFFLINE_THRESHOLD < sub32 now n.lastSeen)
    then { n with online := false } else n)

/-- LoRaManager::update (lora_manager.cpp 145-176), without the RX byte
processing: scan-timeout check, pairing-timeout check (Timeout state is
set, the callback fires, then the state collapses to Idle), and the
5-second node online-status sweep. -/
def update (now : Nat) (s : LoRaState) : LoRaState × List Event :=
  let s1 :=
    if s.scanMode && decide (s.scanDuration ≤ sub32 now s.scanStartTime)
    then { s with scanMode := false } else s
  let r2 :=
    if s1.pairingState = PAIR_WAITING_ACK ∧
       LORA_PAIRING_TIMEOUT ≤ sub32 now s1.pairingStartTime then
      ({ s1 with pairingState := PAIR_IDLE },
       [Event.pairingComplete s1.pairingNodeID false])
    else (s1, [])
  let s3 :=
    if 5000 ≤ sub32 now r2.1.lastNodeCheck then
      { r2.1 with
         lastNodeCheck := now
         registeredNodes := updateNodeOnlineStatus now r2.1.registeredNodes }
    else r2.1
  (s3, r2.2)

/-! ## MAC formatting (lora_manager.cpp 757-779) -/

/-- One uppercase hex digit, as printed by snprintf %X. -/
def toHexDigit (n : Nat) : Char :=
  if n < 10 then Char.ofNat (48 + n) else Char.ofNat (55 + n)

/-- snprintf "%02X" of a byte value: exactly two uppercase hex digits. -/
def byteToHex (b : Nat) : List Char :=
  [toHexDigit (b / 16 % 16), toHexDigit (b % 16)]

/-- LoRaManager::macToString (lora_manager.cpp 757-762):
snprintf "%02X:%02X:%02X:%02X:%02X:%02X" over the six bytes, modelled on
the character list of the resulting String. -/
def macToString (mac : MAC) : List Char :=
  match mac with
  | [b0, b1, b2, b3, b4, b5] =>
    byteToHex b0 ++ ':' :: byteToHex b1 ++ ':' :: byteToHex b2 ++
      ':' :: byteToHex b3 ++ ':' :: byteToHex b4 ++ ':' :: byteToHex b5
  | _ => []

/-- A hex digit as accepted by sscanf %x. -/
def isHexDigitChar (c : Char) : Bool :=
  (decide ('0' ≤ c) && decide (c ≤ '9')) ||
  (decide ('A' ≤ c) && decide (c ≤ 'F')) ||
  (decide ('a' ≤ c) && decide (c ≤ 'f'))

/-- Numeric value of a hex digit. -/
def hexVal (c : Char) : Nat :=
  if decide ('0' ≤ c) && decide (c ≤ '9') then c.toNat - 48
  else if decide ('A' ≤ c) && decide (c ≤ 'F') then c.toNat - 55
  else c.toNat - 87

/-- The greedy digit-run consumption of one sscanf %x conversion:
accumulates hex digits until a non-digit, returning the value and the
unconsumed rest. -/
def hexRun : List Char → Nat → Nat × List Char
  | [], acc => (acc, [])
  | c :: rest, acc =>
    if isHexDigitChar c then hexRun rest (acc * 16 + hexVal c)
    else (acc, c :: rest)

/-- One sscanf %x conversion: skip leading whitespace, then require at
least one hex digit and consume the maximal digit run.  (The inputs this
development applies it to — outputs of macToString — carry no sign and no
0x prefix, so those strtoul details are not modelled.) -/
def scanHex (l : List Char) : Option (Nat × List Char) :=
  match l.dropWhile (fun c => c == ' ' || c == '\t' || c == '\n' || c == '\r') with
  | [] => none
  | c :: rest =>
    if isHexDigitChar c then some (hexRun rest (hexVal c)) else none

/-- The literal ':' directive of the sscanf format "%x:%x:%x:%x:%x:%x". -/
def scanColon (l : List Char) : Option (List Char) :=
  match l with
  | ':' :: rest => some rest
  | _ => none

/-- The six %x conversions of sscanf("%x:%x:%x:%x:%x:%x"), succeeding only
when all six convert (sscanf result == 6). -/
def scanSixHex (l : List Char) : Option (List Nat) :=
  (scanHex l).bind fun p0 =>
  (scanColon p0.2).bind fun l1 =>
  (scanHex l1).bind fun p1 =>
  (scanColon p1.2).bind fun l2 =>
  (scanHex l2).bind fun p2 =>
  (scanColon p2.2).bind fun l3 =>
  (scanHex l3).bind fun p3 =>
  (scanColon p3.2).bind fun l4 =>
  (scanHex l4).bind fun p4 =>
  (scanColon p4.2).bind fun l5 =>
  (scanHex l5).map fun p5 =>
  [p0.1, p1.1, p2.1, p3.1, p4.1, p5.1]

/-- LoRaManager::stringToMAC (lora_manager.cpp 764-779): rejects strings
shorter than 17 characters, sscanf's six %x fields, then truncates each
value to uint8_t.  `none` models the C++ `return false`. -/
def stringToMAC (l : List Char) : Option MAC :=
  if l.length < 17 then none
  else (scanSixHex l).map (·.map (· % 256))

/-! ## Persistence (lora_manager.cpp 678-751) -/

/-- One record of the persisted /nodes.json file: integer id, MAC string,
integer device type, name (the fields written by saveNodes). -/
structure SavedRecord where
  id : Nat
  mac : List Char
  deviceType : Nat
  name : String
deriving Repr, DecidableEq

/-- The RegisteredNode reconstructed by loadNodes from one file record
(lora_manager.cpp 730-744): transients zeroed, online=false, lastSeen=0,
valid=true.  The source ignores stringToMAC's return value and leaves
macAddr's bytes unset on a parse failure; the zero MAC stands in for that
unspecified value. -/
def recToNode (r : SavedRecord) : RegisteredNode :=
  { nodeID := r.id % 256
    macAddr := (stringToMAC r.mac).getD (List.replicate MAC_ADDR_LEN 0)
    deviceType := r.deviceType % 256
    name := r.name
    relayStatus := 0
    lastRSSI := 0
    lastSNR := 0
    uptime := 0
    lastSeen := 0
    online := false
    valid := true }

/-- LoRaManager::loadNodes (lora_manager.cpp 705-751).  `file` is the
outcome of LittleFS.exists + open + deserializeJson: `none` when the file
is missing, unopenable or unparsable (the source returns false before
touching the registry), `some recs` when parsing succeeded.  On success
the registry is cleared and rebuilt wholesale from the records. -/
def loadNodes (file : Option (List SavedRecord)) (s : LoRaState) :
    Bool × LoRaState :=
  match file with
  | none => (false, s)
  | some recs => (true, { s with registeredNodes := recs.map recToNode })

/-! ## Operation traces for the registry invariant -/

/-- The operations claim C1 ranges over: startPairing, pairing completion
(an inbound Ack handled by _handleAck), and removeNode. -/
inductive Op where
  | startPair (txOk : Bool) (now : Nat) (mac : MAC)
  | ack (now : Nat) (pkt : AckPacket)
  | remove (id : Nat)
deriving Repr, DecidableEq

/-- State transition of one operation (return values and events dropped). -/
def applyOp (s : LoRaState) : Op → LoRaState
  | Op.startPair txOk now mac => (startPairing txOk now s mac).2
  | Op.ack now pkt => (handleAck now s pkt).1
  | Op.remove id => (removeNode s id).2.1

/-- The state after a sequence of operations from the empty registry. -/
def runOps (ops : List Op) : LoRaState :=
  ops.foldl applyOp initState

/-! ## Concrete fixtures used by witnesses -/

/-- A sample MAC address. -/
def macA : MAC := [0xAA, 0xBB, 0xCC, 0x11, 0x22, 0x33]

/-- A second sample MAC address. -/
def macB : MAC := [0xDE, 0xAD, 0xBE, 0xEF, 0x00, 0x01]

/-- A registered node with a given ID, used to build concrete registries. -/
def sampleNode (id : Nat) : RegisteredNode :=
  { nodeID := id
    macAddr := [0, 0, 0, 0, id / 256 % 256, id % 256]
    deviceType := DEV_TYPE_RELAY_2CH
    name := nodeName id
    relayStatus := 0
    lastRSSI := 0
    lastSNR := 0
    uptime := 0
    lastSeen := 0
    online := false
    valid := true }

/-- A state in the middle of a pairing session with macA, obtained by
startPairing on the empty registry (assigned ID 1, WaitingAck). -/
def sWaiting : LoRaState := (startPairing true 100 initState macA).2

/-! ## Arithmetic helper -/

theorem sub32_eq_sub (a b : Nat) (hle : b ≤ a) (hlt : a - b < U32) :
    sub32 a b = a - b := by
  simp only [sub32, U32] at *
  omega

/-! ## Claim theorems -/

/-- C2: in WaitingAck with assigned ID k and target MAC m, a Welcome-Ack
with status OK appends a RegisteredNode with nodeID=k, macAddr=m (device
type from a matching discovered entry if any, else the default), invokes
saveNodes on the new registry, fires the pairing callback exactly once
with (k, true), and returns the pairing state to Idle. -/
theorem ackWelcomeOkRegisters (now : Nat) (s : LoRaState) (pkt : AckPacket)
    (hW : s.pairingState = PAIR_WAITING_ACK)
    (hT : pkt.ackType = PKG_WELCOME) (hS : pkt.status = ERR_NONE) :
    (handleAck now s pkt).1.registeredNodes
        = s.registeredNodes ++ [mkPairedNode now s] ∧
    (mkPairedNode now s).nodeID = s.pairingNodeID ∧
    (mkPairedNode now s).macAddr = s.pairingMAC ∧
    (mkPairedNode now s).deviceType
        = (match s.discoveredNodes.find? (fun d => d.macAddr == s.pairingMAC) with
           | some d => d.deviceType
           | none => DEV_TYPE_RELAY_2CH) ∧
    (handleAck now s pkt).2
        = [Event.savedNodes (s.registeredNodes ++ [mkPairedNode now s]),
           Event.pairingComplete s.pairingNodeID true] ∧
    (handleAck now s pkt).1.pairingState = PAIR_IDLE := by
  simp [handleAck, hW, hT, hS, mkPairedNode]

theorem ackWelcomeOkRegisters_witness :
    (handleAck 200 sWaiting ⟨3, PKG_WELCOME, ERR_NONE⟩).1.registeredNodes
        = sWaiting.registeredNodes ++ [mkPairedNode 200 sWaiting] ∧
    (mkPairedNode 200 sWaiting).nodeID = sWaiting.pairingNodeID ∧
    (mkPairedNode 200 sWaiting).macAddr = sWaiting.pairingMAC ∧
    (mkPairedNode 200 sWaiting).deviceType
        = (match sWaiting.discoveredNodes.find?
              (fun d => d.macAddr == sWaiting.pairingMAC) with
           | some d => d.deviceType
           | none => DEV_TYPE_RELAY_2CH) ∧
    (handleAck 200 sWaiting ⟨3, PKG_WELCOME, ERR_NONE⟩).2
        = [Event.savedNodes (sWaiting.registeredNodes ++ [mkPairedNode 200 sWaiting]),
           Event.pairingComplete sWaiting.pairingNodeID true] ∧
    (handleAck 200 sWaiting ⟨3, PKG_WELCOME, ERR_NONE⟩).1.pairingState
        = PAIR_IDLE :=
  ackWelcomeOkRegisters 200 sWaiting ⟨3, PKG_WELCOME, ERR_NONE⟩
    (by decide) rfl rfl

/-- C10: while WaitingAck, for a Welcome-typed Ack the handler never
inspects the packet's nodeID field: two Ack packets agreeing on ackType
and status produce identical successor states and events. -/
theorem ackOutcomeIgnoresPacketNodeID (now : Nat) (s : LoRaState)
    (p q : AckPacket)
    (hW : s.pairingState = PAIR_WAITING_ACK)
    (hT : p.ackType = PKG_WELCOME)
    (ht : q.ackType = p.ackType) (hs : q.status = p.status) :
    handleAck now s p = handleAck now s q := by
  obtain ⟨n1, t1, u1⟩ := p
  obtain ⟨n2, t2, u2⟩ := q
  simp only [AckPacket.mk.injEq] at *
  subst ht hs
  simp [handleAck]

theorem ackOutcomeIgnoresPacketNodeID_witness :
    handleAck 200 sWaiting ⟨3, PKG_WELCOME, ERR_NONE⟩
      = handleAck 200 sWaiting ⟨77, PKG_WELCOME, ERR_NONE⟩ :=
  ackOutcomeIgnoresPacketNodeID 200 sWaiting
    ⟨3, PKG_WELCOME, ERR_NONE⟩ ⟨77, PKG_WELCOME, ERR_NONE⟩
    (by decide) rfl rfl rfl

/-- C9: loading a file that parses successfully returns true and replaces
the registry wholesale with the file's entries, each with online=false,
lastSeen=0 and the transients relayStatus/lastRSSI/lastSNR/uptime zeroed;
a missing or unparsable file returns false and leaves the registry (and
the whole state) unchanged. -/
theorem loadNodesRebuildsRegistry (recs : List SavedRecord) (s : LoRaState) :
    (loadNodes (some recs) s).1 = true ∧
    (loadNodes (some recs) s).2.registeredNodes = recs.map recToNode ∧
    (loadNodes (some recs) s).2.registeredNodes.length = recs.length ∧
    (∀ n ∈ (loadNodes (some recs) s).2.registeredNodes,
      n.online = false ∧ n.lastSeen = 0 ∧ n.relayStatus = 0 ∧
      n.lastRSSI = 0 ∧ n.lastSNR = 0 ∧ n.uptime = 0) ∧
    loadNodes none s = (false, s) := by
  refine ⟨rfl, rfl, by simp [loadNodes], ?_, rfl⟩
  intro n hn
  simp only [loadNodes, List.mem_map] at hn
  obtain ⟨r, _, hr⟩ := hn
  subst hr
  simp [recToNode]

theorem loadNodesRebuildsRegistry_witness :
    (loadNodes (some [⟨3, macToString macA, 1, "kitchen"⟩,
                      ⟨7, macToString macB, 2, "garage"⟩]) initState).1 = true ∧
    (loadNodes (some [⟨3, macToString macA, 1, "kitchen"⟩,
                      ⟨7, macToString macB, 2, "garage"⟩]) initState).2.registeredNodes
        = [⟨3, macToString macA, 1, "kitchen"⟩,
           (⟨7, macToString macB, 2, "garage"⟩ : SavedRecord)].map recToNode ∧
    (loadNodes (some [⟨3, macToString macA, 1, "kitchen"⟩,
                      ⟨7, macToString macB, 2, "garage"⟩]) initState).2.registeredNodes.length
        = ([⟨3, macToString macA, 1, "kitchen"⟩,
            (⟨7, macToString macB, 2, "garage"⟩ : SavedRecord)] : List SavedRecord).length ∧
    (∀ n ∈ (loadNodes (some [⟨3, macToString macA, 1, "kitchen"⟩,
                             ⟨7, macToString macB, 2, "garage"⟩]) initState).2.registeredNodes,
      n.online = false ∧ n.lastSeen = 0 ∧ n.relayStatus = 0 ∧
      n.lastRSSI = 0 ∧ n.lastSNR = 0 ∧ n.uptime = 0) ∧
    loadNodes none initState = (false, initState) :=
  loadNodesRebuildsRegistry
    [⟨3, macToString macA, 1, "kitchen"⟩, ⟨7, macToString macB, 2, "garage"⟩]
    initState

/-- C5: if an update tick runs while the session is WaitingAck, at least
LORA_PAIRING_TIMEOUT (10 s) after the session's start (with less than a
full uint32 wraparound elapsed), then after the tick the pairing state is
Idle and the tick fired the pairing callback exactly once, with
success=false. -/
theorem pairingTimeoutCollapsesToIdle (now : Nat) (s : LoRaState)
    (hW : s.pairingState = PAIR_WAITING_ACK)
    (h1 : s.pairingStartTime + LORA_PAIRING_TIMEOUT ≤ now)
    (h2 : now - s.pairingStartTime < U32) :
    (update now s).1.pairingState = PAIR_IDLE ∧
    (update now s).2 = [Event.pairingComplete s.pairingNodeID false] := by
  have hsub : sub32 now s.pairingStartTime = now - s.pairingStartTime :=
    sub32_eq_sub _ _ (by omega) h2
  have hp : LORA_PAIRING_TIMEOUT ≤ sub32 now s.pairingStartTime := by
    rw [hsub]; omega
  simp only [update]
  split_ifs with hscan hpair hsweep hsweep' hpair' hsweep'' hsweep''' <;>
    simp_all [hW, hp]

theorem pairingTimeoutCollapsesToIdle_witness :
    (update 10100 sWaiting).1.pairingState = PAIR_IDLE ∧
    (update 10100 sWaiting).2
      = [Event.pairingComplete sWaiting.pairingNodeID false] :=
  pairingTimeoutCollapsesToIdle 10100 sWaiting (by decide) (by decide)
    (by decide)

/-- C6: an incoming Hello appends a DiscoveredNode entry and fires the
discovery callback exactly when a scan is active, the MAC is not already
discovered, the MAC is not a valid RegisteredNode's, and the discovered
list holds fewer than 16 entries; in every other case the state is
unchanged (no eviction, no callback) — in particular a Hello from a
registered MAC never enters the list. -/
theorem helloDiscoveryGates (now : Nat) (s : LoRaState) (pkt : HelloPacket)
    (rssi snr : Int) :
    ((s.scanMode = true ∧
      isDuplicateDiscovered s.discoveredNodes pkt.macAddr = false ∧
      isNodeRegistered s.registeredNodes pkt.macAddr = false ∧
      s.discoveredNodes.length < MAX_DISCOVERED_NODES) →
      handleHello now s pkt rssi snr
        = ({ s with discoveredNodes :=
               s.discoveredNodes ++ [mkDiscoveredNode now pkt rssi snr] },
           [Event.nodeDiscovered (mkDiscoveredNode now pkt rssi snr)])) ∧
    (¬ (s.scanMode = true ∧
      isDuplicateDiscovered s.discoveredNodes pkt.macAddr = false ∧
      isNodeRegistered s.registeredNodes pkt.macAddr = false ∧
      s.discoveredNodes.length < MAX_DISCOVERED_NODES) →
      handleHello now s pkt rssi snr = (s, [])) := by
  constructor
  · rintro ⟨hs, hd, hr, hl⟩
    simp [handleHello, addDiscoveredNode, hs, hd, hr, Nat.not_le.mpr hl]
  · intro h
    simp only [handleHello, addDiscoveredNode]
    by_cases hs : s.scanMode
    · by_cases hd : isDuplicateDiscovered s.discoveredNodes pkt.macAddr
      · simp [hs, hd]
      · by_cases hr : isNodeRegistered s.registeredNodes pkt.macAddr
        · simp [hs, hd, hr]
        · have hl : MAX_DISCOVERED_NODES ≤ s.discoveredNodes.length := by
            by_contra hl
            exact h ⟨hs, by simpa using hd, by simpa using hr, Nat.not_le.mp hl⟩
          simp [hs, hd, hr, hl]
    · simp [hs]

theorem helloDiscoveryGates_witness :
    (((initState.scanMode = true ∧
      isDuplicateDiscovered initState.discoveredNodes macA = false ∧
      isNodeRegistered initState.registeredNodes macA = false ∧
      initState.discoveredNodes.length < MAX_DISCOVERED_NODES) →
      handleHello 7 initState ⟨macA, 1, 1⟩ (-50) 10
        = ({ initState with discoveredNodes :=
               initState.discoveredNodes ++ [mkDiscoveredNode 7 ⟨macA, 1, 1⟩ (-50) 10] },
           [Event.nodeDiscovered (mkDiscoveredNode 7 ⟨macA, 1, 1⟩ (-50) 10)])) ∧
    (¬ (initState.scanMode = true ∧
      isDuplicateDiscovered initState.discoveredNodes macA = false ∧
      isNodeRegistered initState.registeredNodes macA = false ∧
      initState.discoveredNodes.length < MAX_DISCOVERED_NODES) →
      handleHello 7 initState ⟨macA, 1, 1⟩ (-50) 10 = (initState, []))) :=
  helloDiscoveryGates 7 initState ⟨macA, 1, 1⟩ (-50) 10

/-- A concrete three-node registry state (IDs 1, 2, 3). -/
def s123 : LoRaState :=
  { initState with
     registeredNodes := [sampleNode 1, sampleNode 2, sampleNode 3] }

/-- The scan loop of _getNextFreeID either exhausts its range with every
ID used, or stops at the first unused ID of the range. -/
theorem scanFree_spec (nodes : List RegisteredNode) :
    ∀ fuel start,
      (scanFree nodes fuel start = 0 ∧
        ∀ j, start ≤ j → j < start + fuel → idUsed nodes j = true) ∨
      (start ≤ scanFree nodes fuel start ∧
        scanFree nodes fuel start < start + fuel ∧
        idUsed nodes (scanFree nodes fuel start) = false ∧
        ∀ j, start ≤ j → j < scanFree nodes fuel start →
          idUsed nodes j = true) := by
  intro fuel
  induction fuel with
  | zero =>
    intro start
    left
    exact ⟨rfl, fun j h1 h2 => absurd h2 (by omega)⟩
  | succ n ih =>
    intro start
    by_cases hu : idUsed nodes start = true
    · rw [show scanFree nodes (n + 1) start = scanFree nodes n (start + 1) by
        simp [scanFree, hu]]
      rcases ih (start + 1) with ⟨h0, hall⟩ | ⟨hle, hlt, hfree, hmin⟩
      · left
        refine ⟨h0, fun j hj1 hj2 => ?_⟩
        rcases Nat.eq_or_lt_of_le hj1 with heq | hj
        · exact heq ▸ hu
        · exact hall j (by omega) (by omega)
      · right
        refine ⟨by omega, by omega, hfree, fun j hj1 hj2 => ?_⟩
        rcases Nat.eq_or_lt_of_le hj1 with heq | hj
        · exact heq ▸ hu
        · exact hmin j (by omega) hj2
    · rw [show scanFree nodes (n + 1) start = start by simp [scanFree, hu]]
      right
      exact ⟨Nat.le_refl _, by omega, by simpa using hu,
        fun j h1 h2 => absurd (Nat.lt_of_le_of_lt h1 h2) (Nat.lt_irrefl _)⟩

/-- C7: _getNextFreeID returns the smallest ID in 1..254 not used by any
valid RegisteredNode (0 and 255 being reserved) and the sentinel 0 when
all of 1..254 are used; 255 is never returned; and after removing the
node with ID 2 from a {1,2,3} registry, allocation returns 2 again
(before the removal it returned 4). -/
theorem nextFreeIDSmallest (nodes : List RegisteredNode) :
    (∀ j, 1 ≤ j → j ≤ 254 →
      (idUsed nodes j = true ↔ ∃ n ∈ nodes, n.valid = true ∧ n.nodeID = j)) ∧
    (getNextFreeID nodes ≠ 0 →
      1 ≤ getNextFreeID nodes ∧ getNextFreeID nodes ≤ 254 ∧
      idUsed nodes (getNextFreeID nodes) = false ∧
      ∀ j, 1 ≤ j → j < getNextFreeID nodes → idUsed nodes j = true) ∧
    (getNextFreeID nodes = 0 →
      ∀ j, 1 ≤ j → j ≤ 254 → idUsed nodes j = true) ∧
    getNextFreeID nodes ≠ 255 ∧
    ((removeNode s123 2).1 = true ∧
      getNextFreeID s123.registeredNodes = 4 ∧
      getNextFreeID (removeNode s123 2).2.1.registeredNodes = 2) := by
  have hspec := scanFree_spec nodes 254 1
  have hres : getNextFreeID nodes = scanFree nodes 254 1 := rfl
  refine ⟨?_, ?_, ?_, ?_, by decide⟩
  · intro j h1 h254
    simp only [idUsed, List.any_eq_true, Bool.or_eq_true, beq_iff_eq,
      Bool.and_eq_true]
    constructor
    · rintro ((h0 | h255) | ⟨n, hn, hv, hid⟩)
      · omega
      · omega
      · exact ⟨n, hn, hv, hid⟩
    · rintro ⟨n, hn, hv, hid⟩
      exact Or.inr ⟨n, hn, hv, hid⟩
  · intro hne
    rcases hspec with ⟨h0, _⟩ | ⟨hle, hlt, hfree, hmin⟩
    · exact absurd (hres.trans h0) hne
    · rw [hres]
      exact ⟨hle, by omega, hfree, fun j hj1 hj2 => hmin j hj1 hj2⟩
  · intro h0 j h1 h254
    rcases hspec with ⟨_, hall⟩ | ⟨hle, _, _, _⟩
    · exact hall j h1 (by omega)
    · rw [hres] at h0; omega
  · rcases hspec with ⟨h0, _⟩ | ⟨_, hlt, _, _⟩
    · rw [hres, h0]; omega
    · rw [hres]; omega

theorem nextFreeIDSmallest_witness :
    (∀ j, 1 ≤ j → j ≤ 254 →
      (idUsed s123.registeredNodes j = true ↔
        ∃ n ∈ s123.registeredNodes, n.valid = true ∧ n.nodeID = j)) ∧
    (getNextFreeID s123.registeredNodes ≠ 0 →
      1 ≤ getNextFreeID s123.registeredNodes ∧
      getNextFreeID s123.registeredNodes ≤ 254 ∧
      idUsed s123.registeredNodes (getNextFreeID s123.registeredNodes) = false ∧
      ∀ j, 1 ≤ j → j < getNextFreeID s123.registeredNodes →
        idUsed s123.registeredNodes j = true) ∧
    (getNextFreeID s123.registeredNodes = 0 →
      ∀ j, 1 ≤ j → j ≤ 254 → idUsed s123.registeredNodes j = true) ∧
    getNextFreeID s123.registeredNodes ≠ 255 ∧
    ((removeNode s123 2).1 = true ∧
      getNextFreeID s123.registeredNodes = 4 ∧
      getNextFreeID (removeNode s123 2).2.1.registeredNodes = 2) :=
  nextFreeIDSmallest s123.registeredNodes

/-! ## MAC round-trip lemmas -/

/-- An uppercase hex digit, the only characters %02X emits. -/
def isUpperHexDigit (c : Char) : Bool :=
  (decide ('0' ≤ c) && decide (c ≤ '9')) ||
  (decide ('A' ≤ c) && decide (c ≤ 'F'))

/-- The exact shape XX:XX:XX:XX:XX:XX with uppercase hex digits. -/
def macFormatted : List Char → Bool
  | [a, b, c1, d, e, c2, f, g, c3, h, i, c4, j, k, c5, l, m] =>
    isUpperHexDigit a && isUpperHexDigit b && (c1 == ':') &&
    isUpperHexDigit d && isUpperHexDigit e && (c2 == ':') &&
    isUpperHexDigit f && isUpperHexDigit g && (c3 == ':') &&
    isUpperHexDigit h && isUpperHexDigit i && (c4 == ':') &&
    isUpperHexDigit j && isUpperHexDigit k && (c5 == ':') &&
    isUpperHexDigit l && isUpperHexDigit m
  | _ => false

theorem toHexDigit_props : ∀ n < 16,
    isHexDigitChar (toHexDigit n) = true ∧
    isUpperHexDigit (toHexDigit n) = true ∧
    hexVal (toHexDigit n) = n ∧
    ((toHexDigit n == ' ' || toHexDigit n == '\t' ||
      toHexDigit n == '\n' || toHexDigit n == '\r') = false) := by
  decide

theorem hexRun_stops (b : Nat) (r : List Char)
    (hr : ∀ c r', r = c :: r' → isHexDigitChar c = false) :
    hexRun r b = (b, r) := by
  cases r with
  | nil => rfl
  | cons c r' => simp [hexRun, hr c r' rfl]

theorem scanHex_byteToHex (b : Nat) (hb : b < 256) (r : List Char)
    (hr : ∀ c r', r = c :: r' → isHexDigitChar c = false) :
    scanHex (byteToHex b ++ r) = some (b, r) := by
  have hdiv : b / 16 < 16 := by omega
  have hdm : b / 16 % 16 = b / 16 := Nat.mod_eq_of_lt hdiv
  obtain ⟨hx1, _, hv1, hw1⟩ := toHexDigit_props (b / 16) hdiv
  obtain ⟨hx2, _, hv2, hw2⟩ := toHexDigit_props (b % 16) (Nat.mod_lt _ (by omega))
  simp only [byteToHex, hdm, List.cons_append, List.nil_append]
  simp only [scanHex, List.dropWhile]
  rw [show ((toHexDigit (b / 16) == ' ' || toHexDigit (b / 16) == '\t' ||
      toHexDigit (b / 16) == '\n' || toHexDigit (b / 16) == '\r')) = false by
    simpa using hw1]
  simp only [Bool.false_eq_true, if_false, hx1, if_true, hexRun, hx2,
    hexRun_stops _ r hr, hv1, hv2]
  have : b / 16 * 16 + b % 16 = b := by omega
  rw [this]

theorem scanHex_byteToHex_colon (b : Nat) (hb : b < 256) (r : List Char) :
    scanHex (byteToHex b ++ ':' :: r) = some (b, ':' :: r) :=
  scanHex_byteToHex b hb (':' :: r)
    (fun c r' h => by cases h; decide)

theorem scanHex_byteToHex_nil (b : Nat) (hb : b < 256) :
    scanHex (byteToHex b) = some (b, []) := by
  have := scanHex_byteToHex b hb [] (fun c r' h => by cases h)
  simpa using this

/-- C8: for every 6-byte MAC, stringToMAC succeeds on macToString's
output and returns exactly the original bytes, and macToString always
produces the colon-separated uppercase-hex shape XX:XX:XX:XX:XX:XX. -/
theorem macStringRoundTrip (mac : MAC) (hlen : mac.length = 6)
    (hbytes : ∀ b ∈ mac, b < 256) :
    stringToMAC (macToString mac) = some mac ∧
    macFormatted (macToString mac) = true := by
  match mac, hlen with
  | [b0, b1, b2, b3, b4, b5], _ =>
    have h0 : b0 < 256 := hbytes b0 (by simp)
    have h1 : b1 < 256 := hbytes b1 (by simp)
    have h2 : b2 < 256 := hbytes b2 (by simp)
    have h3 : b3 < 256 := hbytes b3 (by simp)
    have h4 : b4 < 256 := hbytes b4 (by simp)
    have h5 : b5 < 256 := hbytes b5 (by simp)
    constructor
    · have hlen17 : (macToString [b0, b1, b2, b3, b4, b5]).length = 17 := by
        simp [macToString, byteToHex]
      have hsix : scanSixHex (macToString [b0, b1, b2, b3, b4, b5])
          = some [b0, b1, b2, b3, b4, b5] := by
        simp only [macToString, scanSixHex, List.cons_append,
          List.append_assoc, List.nil_append,
          scanHex_byteToHex_colon b0 h0, scanColon,
          scanHex_byteToHex_colon b1 h1,
          scanHex_byteToHex_colon b2 h2,
          scanHex_byteToHex_colon b3 h3,
          scanHex_byteToHex_colon b4 h4,
          scanHex_byteToHex_nil b5 h5, Option.bind, Option.map]
      simp only [stringToMAC, hlen17]
      rw [if_neg (by omega), hsix]
      simp [Nat.mod_eq_of_lt, h0, h1, h2, h3, h4, h5]
    · obtain ⟨_, hu0a, _, _⟩ := toHexDigit_props (b0 / 16 % 16) (by omega)
      obtain ⟨_, hu0b, _, _⟩ := toHexDigit_props (b0 % 16) (by omega)
      obtain ⟨_, hu1a, _, _⟩ := toHexDigit_props (b1 / 16 % 16) (by omega)
      obtain ⟨_, hu1b, _, _⟩ := toHexDigit_props (b1 % 16) (by omega)
      obtain ⟨_, hu2a, _, _⟩ := toHexDigit_props (b2 / 16 % 16) (by omega)
      obtain ⟨_, hu2b, _, _⟩ := toHexDigit_props (b2 % 16) (by omega)
      obtain ⟨_, hu3a, _, _⟩ := toHexDigit_props (b3 / 16 % 16) (by omega)
      obtain ⟨_, hu3b, _, _⟩ := toHexDigit_props (b3 % 16) (by omega)
      obtain ⟨_, hu4a, _, _⟩ := toHexDigit_props (b4 / 16 % 16) (by omega)
      obtain ⟨_, hu4b, _, _⟩ := toHexDigit_props (b4 % 16) (by omega)
      obtain ⟨_, hu5a, _, _⟩ := toHexDigit_props (b5 / 16 % 16) (by omega)
      obtain ⟨_, hu5b, _, _⟩ := toHexDigit_props (b5 % 16) (by omega)
      simp [macToString, byteToHex, macFormatted, hu0a, hu0b, hu1a, hu1b,
        hu2a, hu2b, hu3a, hu3b, hu4a, hu4b, hu5a, hu5b]

theorem macStringRoundTrip_witness :
    stringToMAC (macToString macA) = some macA ∧
    macFormatted (macToString macA) = true :=
  macStringRoundTrip macA rfl (by decide)

/-! ## Registry uniqueness invariant -/

/-- Valid RegisteredNodes are pairwise distinct in both Node ID and MAC. -/
def RegOK (nodes : List RegisteredNode) : Prop :=
  (nodes.filter (fun n => n.valid)).Pairwise
    (fun a b => a.nodeID ≠ b.nodeID ∧ a.macAddr ≠ b.macAddr)

/-- Inductive invariant: the registry is duplicate-free, and while a
session is WaitingAck its assigned ID and target MAC are absent from the
registry's valid entries. -/
def Inv (s : LoRaState) : Prop :=
  RegOK s.registeredNodes ∧
  (s.pairingState = PAIR_WAITING_ACK →
    ∀ n ∈ s.registeredNodes, n.valid = true →
      n.nodeID ≠ s.pairingNodeID ∧ n.macAddr ≠ s.pairingMAC)

theorem eraseFirstID_sublist (l : List RegisteredNode) (id : Nat) :
    (eraseFirstID l id).2.Sublist l := by
  induction l with
  | nil => simp [eraseFirstID]
  | cons n rest ih =>
    simp only [eraseFirstID]
    by_cases h : n.nodeID = id
    · simpa [h] using List.sublist_cons_self n rest
    · simpa [h] using ih.cons₂ n

theorem getNextFreeID_free (nodes : List RegisteredNode)
    (h : getNextFreeID nodes ≠ 0) :
    idUsed nodes (getNextFreeID nodes) = false := by
  rcases scanFree_spec nodes 254 1 with ⟨h0, _⟩ | ⟨_, _, hfree, _⟩
  · exact absurd h0 h
  · exact hfree

theorem startPairing_preserves (txOk : Bool) (now : Nat) (mac : MAC)
    (s : LoRaState) (h : Inv s) : Inv (startPairing txOk now s mac).2 := by
  unfold startPairing
  by_cases h1 : s.pairingState ≠ PAIR_IDLE
  · simpa [h1] using h
  · push_neg at h1
    by_cases h2 : isNodeRegistered s.registeredNodes mac
    · simp only [h1]
      simpa [h2] using h
    · by_cases h3 : getNextFreeID s.registeredNodes = 0
      · simp only [h1]
        simp only [ne_eq, not_true_eq_false, Bool.false_eq_true, if_false,
          h2, h3, if_true]
        refine ⟨h.1, ?_⟩
        intro hW
        simp at hW
      · simp only [h1]
        simp only [ne_eq, not_true_eq_false, Bool.false_eq_true, if_false,
          h2, h3, if_true]
        refine ⟨h.1, ?_⟩
        intro _ n hn hv
        have hfree := getNextFreeID_free s.registeredNodes h3
        simp only [idUsed, Bool.or_eq_false_iff, List.any_eq_false] at hfree
        constructor
        · intro heq
          have := hfree.2 n hn
          simp [hv, heq] at this
        · intro heq
          simp only [isNodeRegistered, Bool.not_eq_true,
            List.any_eq_false] at h2
          have := h2 n hn
          simp [hv, heq] at this

theorem handleAck_preserves (now : Nat) (pkt : AckPacket) (s : LoRaState)
    (h : Inv s) : Inv (handleAck now s pkt).1 := by
  unfold handleAck
  by_cases hc : s.pairingState = PAIR_WAITING_ACK ∧ pkt.ackType = PKG_WELCOME
  · rw [if_pos hc]
    by_cases hs : pkt.status = ERR_NONE
    · rw [if_pos hs]
      refine ⟨?_, ?_⟩
      · have h2 := h.2 hc.1
        have hreg := h.1
        unfold RegOK at hreg ⊢
        simp only [List.filter_append]
        rw [List.pairwise_append]
        refine ⟨hreg, ?_, ?_⟩
        · simp [mkPairedNode]
        · intro a ha b hb
          simp only [mkPairedNode, List.filter_cons, List.filter_nil] at hb
          simp only [if_true] at hb
          rw [List.mem_singleton] at hb
          subst hb
          rw [List.mem_filter] at ha
          exact ⟨(h2 a ha.1 ha.2).1, (h2 a ha.1 ha.2).2⟩
      · intro hW
        exact absurd hW (by simp)
    · rw [if_neg hs]
      refine ⟨h.1, ?_⟩
      intro hW
      exact absurd hW (by simp)
  · rw [if_neg hc]
    exact h

theorem removeNode_preserves (id : Nat) (s : LoRaState) (h : Inv s) :
    Inv (removeNode s id).2.1 := by
  unfold removeNode
  have hsub := eraseFirstID_sublist s.registeredNodes id
  by_cases hf : (eraseFirstID s.registeredNodes id).1 = true
  · simp only [hf, if_true]
    refine ⟨h.1.sublist (hsub.filter _), ?_⟩
    intro hW n hn hv
    exact h.2 hW n (hsub.subset hn) hv
  · simp only [hf]
    simpa using h

theorem inv_initState : Inv initState := by
  refine ⟨?_, ?_⟩
  · simp [RegOK, initState]
  · intro hW
    exact absurd hW (by decide)

theorem foldl_applyOp_inv (ops : List Op) :
    ∀ s, Inv s → Inv (ops.foldl applyOp s) := by
  induction ops with
  | nil => exact fun s h => h
  | cons op rest ih =>
    intro s h
    rw [List.foldl_cons]
    apply ih
    cases op with
    | startPair txOk now mac => exact startPairing_preserves txOk now mac s h
    | ack now pkt => exact handleAck_preserves now pkt s h
    | remove id => exact removeNode_preserves id s h

/-- C1: after any sequence of startPairing / pairing-completion (Ack
handling) / removeNode operations from the empty registry, no two valid
RegisteredNodes share a Node ID and no two share a MAC address. -/
theorem registryUniqueIDsAndMACs (ops : List Op) :
    ((runOps ops).registeredNodes.filter (fun n => n.valid)).Pairwise
      (fun a b => a.nodeID ≠ b.nodeID ∧ a.macAddr ≠ b.macAddr) :=
  (foldl_applyOp_inv ops initState inv_initState).1

/-! ## startPairing rejection paths and the registry capacity gap -/

/-- A full registry: valid nodes occupying every ID 1..254. -/
def regFull : List RegisteredNode :=
  (List.range 254).map (fun i => sampleNode (i + 1))

/-- An Idle state with a full registry and a stale assigned-ID left over
from a previous session (the source only clears _pairingNodeID in
cancelPairing). -/
def sFull : LoRaState :=
  { initState with registeredNodes := regFull, pairingNodeID := 7 }

/-- A registry holding exactly 32 valid nodes (IDs 1..32), the documented
MAX_NODES capacity. -/
def reg32 : List RegisteredNode :=
  (List.range 32).map (fun i => sampleNode (i + 1))

/-- An Idle state at the documented registry capacity. -/
def s32 : LoRaState :=
  { initState with registeredNodes := reg32 }

set_option maxRecDepth 100000 in
/-- C3 counterexample: with a full registry (no free Node ID) and a stale
assigned-ID of 7, startPairing returns false but does mutate the state:
it overwrites the stored assigned pairing ID with the sentinel 0 before
testing it, so the post-state differs from the pre-state. -/
theorem startPairingNoFreeIDMutatesState :
    (startPairing true 0 sFull macB).1 = false ∧
    (startPairing true 0 sFull macB).2 ≠ sFull := by
  have h1 : (startPairing true 0 sFull macB).2.pairingNodeID = 0 := by rfl
  refine ⟨by rfl, fun h => ?_⟩
  rw [h] at h1
  exact absurd h1 (by decide)

/-- C3 (amended): startPairing returns false when a session is already in
progress, when the MAC is already registered, or when no Node ID is free;
the first two rejections change nothing at all — in particular a call
during WaitingAck leaves the in-flight session untouched — while the
no-free-ID rejection's only change is overwriting the stored assigned
pairing ID with the sentinel 0. -/
theorem startPairingRejectionPaths (txOk : Bool) (now : Nat)
    (s : LoRaState) (mac : MAC) :
    (s.pairingState ≠ PAIR_IDLE → startPairing txOk now s mac = (false, s)) ∧
    (s.pairingState = PAIR_WAITING_ACK →
      startPairing txOk now s mac = (false, s)) ∧
    (s.pairingState = PAIR_IDLE →
      isNodeRegistered s.registeredNodes mac = true →
      startPairing txOk now s mac = (false, s)) ∧
    (s.pairingState = PAIR_IDLE →
      isNodeRegistered s.registeredNodes mac = false →
      getNextFreeID s.registeredNodes = 0 →
      startPairing txOk now s mac = (false, { s with pairingNodeID := 0 })) := by
  refine ⟨?_, ?_, ?_, ?_⟩
  · intro h1
    simp [startPairing, h1]
  · intro h1
    simp [startPairing, h1]
  · intro h1 h2
    simp [startPairing, h1, h2]
  · intro h1 h2 h3
    simp [startPairing, h1, h2, h3]

theorem startPairingRejectionPaths_witness :
    ((sWaiting.pairingState ≠ PAIR_IDLE →
      startPairing true 5 sWaiting macB = (false, sWaiting)) ∧
    (sWaiting.pairingState = PAIR_WAITING_ACK →
      startPairing true 5 sWaiting macB = (false, sWaiting)) ∧
    (sWaiting.pairingState = PAIR_IDLE →
      isNodeRegistered sWaiting.registeredNodes macB = true →
      startPairing true 5 sWaiting macB = (false, sWaiting)) ∧
    (sWaiting.pairingState = PAIR_IDLE →
      isNodeRegistered sWaiting.registeredNodes macB = false →
      getNextFreeID sWaiting.registeredNodes = 0 →
      startPairing true 5 sWaiting macB
        = (false, { sWaiting with pairingNodeID := 0 }))) :=
  startPairingRejectionPaths true 5 sWaiting macB

set_option maxRecDepth 100000 in
/-- C4: the code enforces no 32-node capacity.  From a registry already
holding the documented maximum of 32 valid nodes, startPairing succeeds
(allocating ID 33) and the Welcome-Ack completion appends a 33rd
RegisteredNode instead of reporting a boolean failure. -/
theorem thirtyThirdNodeRegisters :
    s32.registeredNodes.length = MAX_NODES ∧
    (startPairing true 0 s32 macB).1 = true ∧
    (startPairing true 0 s32 macB).2.pairingNodeID = 33 ∧
    (handleAck 5 (startPairing true 0 s32 macB).2
        ⟨33, PKG_WELCOME, ERR_NONE⟩).1.registeredNodes.length
      = MAX_NODES + 1 := by
  refine ⟨by rfl, by rfl, by rfl, by rfl⟩

end MosaicRAK
